import Mathlib

/-
Verification of the portfolio-hero force-field / impulse model.

The repository is a set of React-three-fiber scenes.  The behavioral core is
the per-body force-field controller: a per-frame force (centering spring +
sinusoidal oscillation + optional device-orientation bias), a per-frame
torque, a click-triggered one-shot radial impulse guarded by a React effect
over a trigger counter, and the FloatingObjects sphere-type assignment with a
Fisher-Yates shuffle.  The definitions below are shallow embeddings of those
source fragments; real-number arithmetic models JS number arithmetic, and
React rendering/effect semantics are modelled explicitly as small state
machines.
-/

namespace PortfolioHero

/-! ### Click-trigger impulse mechanism (src/Portfolio-hero/App.jsx lines 181-189)

The code is

    useEffect(() => {
      if (api.current && triggerImpulse > 0) { ...applyImpulse(radial)... }
    }, [triggerImpulse, vec])

React runs such an effect when the component mounts and again whenever any
entry of the dependency array differs (by `Object.is`) from the previous
committed render.  The deps here are the counter `triggerImpulse` AND the
object `vec`; `vec` is the destructuring default parameter
`vec = new THREE.Vector3()` of `Connector` (App.jsx line 128), which the
parent never passes, so a fresh object with a fresh identity is allocated on
every render.  We model a dep pair `(c, v)`: `c` the counter value and `v`
an identity token for the `vec` object of that render (a fresh render
allocates a token not seen before).  The tracking state is `Option (Nat × Nat)`:
`none` means the effect has not run yet for this instance (fresh mount /
re-subscription), `some (pc, pv)` the deps of the last committed run.
`triggerStep` returns the new tracking state and whether a radial impulse
was applied on this evaluation. -/

def effectRuns (s : Option (Nat × Nat)) (c v : Nat) : Bool :=
  match s with
  | none => true
  | some (pc, pv) => pc != c || pv != v

def triggerStep (s : Option (Nat × Nat)) (c v : Nat) : Option (Nat × Nat) × Bool :=
  if effectRuns s c v then (some (c, v), decide (0 < c)) else (s, false)

/-- Run a sequence of committed render evaluations, each given as
`(counter value, vec identity token)`, returning the impulse-applied flag of
each evaluation in order. -/
def triggerRun (s : Option (Nat × Nat)) : List (Nat × Nat) → List Bool
  | [] => []
  | (c, v) :: rest =>
    (triggerStep s c v).2 :: triggerRun (triggerStep s c v).1 rest

/-! ### React keying and phase-offset lifetime (src/Portfolio-hero/App.jsx)

Main variant (line 103): `<Connector key={i} ...>`;
optimized variant (line 358): `<Connector key={accent + '-' + i} ...>`.
React preserves a child component instance across renders exactly when its
key is unchanged; a changed key unmounts the old instance and mounts a fresh
one, whose `useMemo(..., [])` runs again and draws fresh `Math.random()`
phase offsets (App.jsx lines 132-136, 426-441).  We model a single child
slot: the state is `none` (no instance yet) or `some (key, offset)`; a
render with accent `a` supplies the slot key and, if a fresh instance is
mounted, the offset freshly drawn from the random stream (`fresh`). -/

def mainKey (_accent i : Nat) : Nat := i

def optKey (accent i : Nat) : Nat × Nat := (accent, i)

def renderStep {K : Type} [DecidableEq K] (key : Nat → Nat → K) (i a fresh : Nat)
    (s : Option (K × Nat)) : K × Nat :=
  match s with
  | none => (key a i, fresh)
  | some (kold, off) => if kold = key a i then (kold, off) else (key a i, fresh)

/-- Offset held by slot `i` after two committed renders: the first with accent
`a1` (fresh draw `d1` available), the second with accent `a2` (fresh draw
`d2` available). -/
def offsetAfterTwoRenders {K : Type} [DecidableEq K] (key : Nat → Nat → K)
    (i a1 a2 d1 d2 : Nat) : Nat :=
  (renderStep key i a2 d2 (some (renderStep key i a1 d1 none))).2

/-! ### FloatingObjects sphere types (src/Portfolio-hero/FloatingObjects.jsx lines 82-105)

    const types = [];
    types.push(...Array(2).fill('black'));
    types.push(...Array(3).fill('acid'));
    while (types.length < count) { types.push('offwhite'); }
    for (let i = types.length - 1; i > 0; i--) {
      const j = Math.floor(Math.random() * (i + 1));
      [types[i], types[j]] = [types[j], types[i]];
    }
    const spheres = Array.from({ length: count }, (_, i) => ({ ..., type: types[i] }));
-/

inductive SphereType where
  | black
  | acid
  | offwhite
deriving DecidableEq

/-- The `types` array before the shuffle: two `black`, three `acid`, then
`offwhite` appended until the length reaches `count` (the while loop appends
`count - 5` of them when `count > 5`, none otherwise). -/
def buildTypes (count : Nat) : List SphereType :=
  [.black, .black, .acid, .acid, .acid] ++ List.replicate (count - 5) .offwhite

/-- In-place swap of positions `i` and `j`, as the destructuring assignment
`[types[i], types[j]] = [types[j], types[i]]` does; a no-op if either index
is out of range (cannot happen in the loop). -/
def swapAt {α : Type} (l : List α) (i j : Nat) : List α :=
  match l[i]?, l[j]? with
  | some a, some b => (l.set i b).set j a
  | _, _ => l

/-- The Fisher-Yates loop, counting the loop index down from `i` to `1`.
`Math.floor(Math.random() * (i + 1))` is an arbitrary integer in `[0, i]`;
we model the stream of random draws by a function `rand` and reduce the draw
for index `i` into range by `% (i + 1)`. -/
def fisherYates {α : Type} (rand : Nat → Nat) : Nat → List α → List α
  | 0, l => l
  | i + 1, l => fisherYates rand i (swapAt l (i + 1) (rand (i + 1) % (i + 2)))

def shuffledTypes (rand : Nat → Nat) (count : Nat) : List SphereType :=
  fisherYates rand ((buildTypes count).length - 1) (buildTypes count)

/-- The types actually given to the `count` spheres:
`Array.from({length: count}, (_, i) => types[i])`.  JS indexing past the end
would give `undefined`; we use a default that is never reached when
`count ≥ 5` (the shuffled list then has length exactly `count`). -/
def sphereTypes (rand : Nat → Nat) (count : Nat) : List SphereType :=
  (List.range count).map (fun i => (shuffledTypes rand count).getD i .offwhite)

/-! ### Real-valued force model

JS numbers doing `Math.sin`, `Math.cos`, `Math.sqrt` and field arithmetic are
modelled over the reals.  `Vec3` mirrors the `{x, y, z}` records and
`THREE.Vector3`. -/

noncomputable section
open scoped Classical

structure Vec3 where
  x : ℝ
  y : ℝ
  z : ℝ
deriving DecidableEq

def vadd (v w : Vec3) : Vec3 := ⟨v.x + w.x, v.y + w.y, v.z + w.z⟩

def smul (c : ℝ) (v : Vec3) : Vec3 := ⟨c * v.x, c * v.y, c * v.z⟩

def vneg (v : Vec3) : Vec3 := ⟨-v.x, -v.y, -v.z⟩

/-- `THREE.Vector3.length()`. -/
def vlen (v : Vec3) : ℝ := Real.sqrt (v.x ^ 2 + v.y ^ 2 + v.z ^ 2)

/-- The divisor used by `THREE.Vector3.normalize()`, which is
`divideScalar(this.length() || 1)`: when the length is `0` (falsy) the
divisor is `1`, so a zero vector is divided by `1`, never by `0`. -/
def normDivisor (v : Vec3) : ℝ := if vlen v = 0 then 1 else vlen v

/-- `THREE.Vector3.normalize()`. -/
def vnormalize (v : Vec3) : Vec3 :=
  ⟨v.x / normDivisor v, v.y / normDivisor v, v.z / normDivisor v⟩

/-! #### Connector per-frame controller (src/Portfolio-hero/App.jsx lines 138-177) -/

def forceMultiplier : ℝ := 0.4

/-- `const oscSpeeds = { x: 0.8, y: 1.0, z: 0.6 }` (App.jsx line 138). -/
def oscSpeeds : Vec3 := ⟨0.8, 1.0, 0.6⟩

def maxTilt : ℝ := 30

def gyroStrength : ℝ := 0.15

def torqueStrength : ℝ := 0.001

/-- The centering part of the per-tick force: `-currentPosition * 0.4`
per axis (App.jsx lines 148-150, first summand of each component). -/
def centeringTerm (p : Vec3) : Vec3 :=
  ⟨-p.x * forceMultiplier, -p.y * forceMultiplier, -p.z * forceMultiplier⟩

/-- The oscillation part of the per-tick force (App.jsx lines 148-150,
second summand of each component). -/
def oscTerm (t : ℝ) (phi : Vec3) : Vec3 :=
  ⟨Real.sin (t * oscSpeeds.x + phi.x) * 0.1,
   Real.cos (t * oscSpeeds.y + phi.y) * 0.1,
   Real.sin (t * oscSpeeds.z + phi.z) * 0.05⟩

/-- `centeringForce` as first assigned (App.jsx lines 147-151), before the
gyroscope block may modify it. -/
def baseForce (t : ℝ) (p phi : Vec3) : Vec3 := vadd (centeringTerm p) (oscTerm t phi)

/-- Permission state reported by `useGyroscope` (App.jsx lines 8-46). -/
inductive PermState where
  | granted
  | denied
  | unknown
deriving DecidableEq

/-- A device-orientation reading, degrees. -/
structure Orient where
  beta : ℝ
  gamma : ℝ

/-- The gyroscope bias added to `centeringForce.x` / `centeringForce.y`
inside the `isSupported && permission === 'granted'` block
(App.jsx lines 156-165): values clamped to `[-1, 1]` after division by
`maxTilt`, scaled by `gyroStrength`, with the x-axis sign inverted. -/
def gyroBias (o : Orient) : ℝ × ℝ :=
  (-(max (-1) (min 1 (o.gamma / maxTilt))) * gyroStrength,
   max (-1) (min 1 (o.beta / maxTilt)) * gyroStrength)

/-- The force passed to `applyImpulse` each frame (App.jsx lines 147-169):
the base centering+oscillation force, with the gyro bias added to the x and
y components when the gyroscope is supported and permission is granted. -/
def connectorForce (supported : Bool) (perm : PermState) (o : Orient)
    (t : ℝ) (p phi : Vec3) : Vec3 :=
  if supported = true ∧ perm = PermState.granted then
    ⟨(baseForce t p phi).x + (gyroBias o).1,
     (baseForce t p phi).y + (gyroBias o).2,
     (baseForce t p phi).z⟩
  else baseForce t p phi

/-- The torque passed to `applyTorqueImpulse` each frame
(App.jsx lines 172-177). -/
def connectorTorque (t : ℝ) (phi : Vec3) : Vec3 :=
  ⟨Real.sin (t + phi.x) * torqueStrength,
   Real.cos (t + phi.y) * torqueStrength,
   Real.sin (t + phi.z) * torqueStrength⟩

/-- The full per-frame output of the `useFrame` callback (App.jsx lines
140-177): the force and the torque applied to the body this tick. -/
def connectorFrame (supported : Bool) (perm : PermState) (o : Orient)
    (t : ℝ) (p phi : Vec3) : Vec3 × Vec3 :=
  (connectorForce supported perm o t p phi, connectorTorque t phi)

/-- The per-instance state a `Connector` holds besides its props: the memoized
phase offsets (App.jsx lines 132-136) and the last trigger-counter value the
click effect of lines 181-189 ran with — state the per-frame path never
reads. -/
structure ConnectorState where
  offset : Vec3
  lastTrigger : Option Nat

/-- One per-frame evaluation of a connector instance with steering inputs in
scope, reading its own state. -/
def frameUpdate (s : ConnectorState) (supported : Bool) (perm : PermState)
    (o : Orient) (t : ℝ) (p : Vec3) : Vec3 × Vec3 :=
  connectorFrame supported perm o t p s.offset

/-- The startup feature-detection of `useGyroscope` (App.jsx lines 13-26):
`hasAPI` is whether `DeviceOrientationEvent` exists in `window`,
`needsGesture` whether `requestPermission` is a function (iOS 13+, treated as
denied since there is no permission button). -/
def gyroAdapter (hasAPI needsGesture : Bool) : Bool × PermState :=
  if hasAPI = true then
    (true, if needsGesture = true then PermState.denied else PermState.granted)
  else (false, PermState.denied)

/-- The click-triggered radial impulse (App.jsx lines 183-187):
`vec.set(p).normalize().multiplyScalar(50)`. -/
def clickImpulse (p : Vec3) : Vec3 := smul 50 (vnormalize p)

/-- The per-frame attraction of `FloatingSphere`
(src/Portfolio-hero/FloatingObjects.jsx lines 17-19):
`new THREE.Vector3(-pos.x, -pos.y, -pos.z).normalize().multiplyScalar(0.08)`. -/
def floatingAttraction (p : Vec3) : Vec3 := smul 0.08 (vnormalize (vneg p))

/-- The per-frame inward impulse of the `Connector` in src/unnamed/part_008
(line 66): `vec.copy(translation()).negate().multiplyScalar(0.15)`. -/
def inwardForce008 (p : Vec3) : Vec3 := smul 0.15 (vneg p)

end

/-! ## Theorems -/

/-- C1: The claim says each counter increment causes exactly one impulse,
none fire without an increase, and the 0, 1, 1, 2 scenario yields impulses
on the 2nd and 4th evaluations only.  In the main variant the effect deps
are `[triggerImpulse, vec]` and `vec` is the default-parameter
`new THREE.Vector3()`, a fresh object on every render, so the deps never
compare equal and the effect re-runs on every committed render: once the
counter is positive, every re-render re-applies the 50-magnitude radial
impulse.  Running the scenario with counters 0, 1, 1, 2 and per-render
fresh vec identities 0, 1, 2, 3 fires impulses on evaluations 2, 3 and 4:
the 3rd evaluation, whose counter is unchanged at 1, contradicts the
claim. -/
theorem trigger_refires_on_every_rerender :
    triggerRun none [(0, 0), (1, 1), (1, 2), (2, 3)] = [false, true, true, true] := by
  exact rfl

/-- C3: The per-axis phase offsets are claimed to be drawn once per body and
kept for its whole lifetime across all re-renders, including accent-changing
clicks.  In the main variant the connector key is the index alone, so the
instance and its memoized offsets survive an accent change (the second
conjunct: the offset is still the first draw, 3).  In the optimized variant
the key contains the accent, so an accent change 0 to 1 remounts the
connector and the offsets are drawn anew (the first conjunct: the offset is
the second draw, 7). -/
theorem optimized_variant_redraws_offsets_on_accent_change :
    offsetAfterTwoRenders optKey 0 0 1 3 7 = 7 ∧
    offsetAfterTwoRenders mainKey 0 0 1 3 7 = 3 := by
  exact ⟨rfl, rfl⟩

/-! ### Count preservation of the Fisher-Yates shuffle -/

theorem count_set_add {α : Type} [BEq α] [LawfulBEq α] (l : List α) (i : Nat)
    (b x : α) (h : i < l.length) :
    (l.set i b).count x + (if l[i] == x then 1 else 0)
      = l.count x + (if b == x then 1 else 0) := by
  induction l generalizing i with
  | nil => simp at h
  | cons hd tl ih =>
    cases i with
    | zero =>
      simp only [List.set_cons_zero, List.count_cons, List.getElem_cons_zero]
      omega
    | succ n =>
      have hn : n < tl.length := by simpa using h
      have := ih n hn
      simp only [List.set_cons_succ, List.count_cons, List.getElem_cons_succ]
      omega

theorem count_swapAt {α : Type} [BEq α] [LawfulBEq α] (l : List α) (i j : Nat)
    (x : α) : (swapAt l i j).count x = l.count x := by
  cases hi : l[i]? with
  | none => unfold swapAt; rw [hi]
  | some a =>
    cases hj : l[j]? with
    | none => unfold swapAt; rw [hi, hj]
    | some b =>
      have hred : swapAt l i j = (l.set i b).set j a := by
        unfold swapAt; rw [hi, hj]
      obtain ⟨hilt, hia⟩ := List.getElem?_eq_some_iff.1 hi
      obtain ⟨hjlt, hjb⟩ := List.getElem?_eq_some_iff.1 hj
      have hjlt2 : j < (l.set i b).length := by simpa using hjlt
      have h1 := count_set_add l i b x hilt
      have h2 := count_set_add (l.set i b) j a x hjlt2
      rw [hred]
      by_cases hij : i = j
      · subst hij
        have hab : a = b := by rw [hi] at hj; exact Option.some.inj hj
        subst hab
        have hself : (l.set i a)[i] = a := List.getElem_set_self hjlt2
        rw [hself] at h2
        rw [hia] at h1
        omega
      · have hne : (l.set i b)[j] = l[j] := List.getElem_set_ne hij hjlt2
        rw [hne, hjb] at h2
        rw [hia] at h1
        omega

theorem count_fisherYates {α : Type} [BEq α] [LawfulBEq α] (rand : Nat → Nat)
    (x : α) : ∀ (n : Nat) (l : List α), (fisherYates rand n l).count x = l.count x := by
  intro n
  induction n with
  | zero => intro l; rfl
  | succ m ih =>
    intro l
    rw [fisherYates, ih, count_swapAt]

theorem length_swapAt {α : Type} (l : List α) (i j : Nat) :
    (swapAt l i j).length = l.length := by
  unfold swapAt
  cases l[i]? <;> cases l[j]? <;> simp

theorem length_fisherYates {α : Type} (rand : Nat → Nat) :
    ∀ (n : Nat) (l : List α), (fisherYates rand n l).length = l.length := by
  intro n
  induction n with
  | zero => intro l; rfl
  | succ m ih =>
    intro l
    rw [fisherYates, ih, length_swapAt]

theorem map_getD_range {α : Type} (l : List α) (d : α) :
    (List.range l.length).map (fun i => l.getD i d) = l := by
  apply List.ext_getElem
  · simp
  · intro i h1 h2
    simp only [List.getElem_map, List.getElem_range]
    exact List.getD_eq_getElem l d h2

/-- C10: For every `count ≥ 5`, `FloatingObjects` creates exactly `count`
spheres whose type multiset is exactly two `black`, three `acid` and
`count - 5` `offwhite`, for every possible stream of shuffle draws: the
Fisher-Yates loop permutes positions but never the number of each type. -/
theorem sphere_type_counts (rand : Nat → Nat) (count : Nat) (h : 5 ≤ count) :
    (sphereTypes rand count).length = count ∧
    (sphereTypes rand count).count SphereType.black = 2 ∧
    (sphereTypes rand count).count SphereType.acid = 3 ∧
    (sphereTypes rand count).count SphereType.offwhite = count - 5 := by
  have hlen0 : (buildTypes count).length = count := by
    simp only [buildTypes, List.length_append, List.length_replicate]
    simp only [List.length_cons, List.length_nil]
    omega
  have hlen : (shuffledTypes rand count).length = count := by
    rw [shuffledTypes, length_fisherYates, hlen0]
  have hsph : sphereTypes rand count = shuffledTypes rand count := by
    have hmap := map_getD_range (shuffledTypes rand count) SphereType.offwhite
    rw [hlen] at hmap
    rw [sphereTypes]
    exact hmap
  have hc : ∀ x : SphereType,
      (shuffledTypes rand count).count x = (buildTypes count).count x := by
    intro x
    rw [shuffledTypes, count_fisherYates]
  rw [hsph]
  refine ⟨hlen, ?_, ?_, ?_⟩ <;>
    rw [hc] <;>
    simp [buildTypes, List.count_append, List.count_replicate, List.count_cons,
      beq_iff_eq]

theorem sphere_type_counts_witness :
    (sphereTypes id 7).length = 7 ∧
    (sphereTypes id 7).count SphereType.black = 2 ∧
    (sphereTypes id 7).count SphereType.acid = 3 ∧
    (sphereTypes id 7).count SphereType.offwhite = 7 - 5 :=
  sphere_type_counts id 7 (by decide)

/-! ### Real-valued force-model theorems -/

theorem vlen_smul (c : ℝ) (v : Vec3) : vlen (smul c v) = |c| * vlen v := by
  rw [vlen, vlen, smul]
  show Real.sqrt ((c * v.x) ^ 2 + (c * v.y) ^ 2 + (c * v.z) ^ 2) = _
  rw [show (c * v.x) ^ 2 + (c * v.y) ^ 2 + (c * v.z) ^ 2
        = c ^ 2 * (v.x ^ 2 + v.y ^ 2 + v.z ^ 2) by ring]
  rw [Real.sqrt_mul (sq_nonneg c), Real.sqrt_sq_eq_abs]

theorem vnormalize_of_origin : vnormalize ⟨0, 0, 0⟩ = ⟨0, 0, 0⟩ := by
  rw [vnormalize]
  norm_num

theorem vlen_origin : vlen ⟨0, 0, 0⟩ = 0 := by
  rw [vlen]
  show Real.sqrt ((0 : ℝ) ^ 2 + 0 ^ 2 + 0 ^ 2) = 0
  rw [show ((0 : ℝ) ^ 2 + 0 ^ 2 + 0 ^ 2) = 0 by norm_num]
  exact Real.sqrt_zero

/-- C2: The claim asserts the centering term is `-p * forceMultiplier`
(magnitude proportional to `|p|`) in every scene variant that applies a
centering attraction.  `FloatingSphere` refutes it: at `p = (2,0,0)` its
attraction is `normalize(-p) * 0.08 = (-0.08, 0, 0)`, a constant-magnitude
pull, not the value `-p * 0.08 = (-0.16, 0, 0)` the spring law predicts. -/
theorem floating_attraction_not_spring_law :
    floatingAttraction ⟨2, 0, 0⟩ = ⟨-(0.08 : ℝ), 0, 0⟩ ∧
    floatingAttraction ⟨2, 0, 0⟩ ≠ smul (-(0.08 : ℝ)) ⟨2, 0, 0⟩ := by
  have hneg : vneg ⟨2, 0, 0⟩ = (⟨-2, 0, 0⟩ : Vec3) := by
    rw [vneg]
    norm_num
  have hlen : vlen (⟨-2, 0, 0⟩ : Vec3) = 2 := by
    rw [vlen]
    show Real.sqrt ((-2 : ℝ) ^ 2 + 0 ^ 2 + 0 ^ 2) = 2
    rw [show ((-2 : ℝ) ^ 2 + 0 ^ 2 + 0 ^ 2) = 2 ^ 2 by norm_num]
    exact Real.sqrt_sq (by norm_num)
  have hnorm : vnormalize (⟨-2, 0, 0⟩ : Vec3) = ⟨-1, 0, 0⟩ := by
    rw [vnormalize, normDivisor, hlen]
    rw [if_neg (by norm_num : (2 : ℝ) ≠ 0)]
    show (⟨(-2 : ℝ) / 2, 0 / 2, 0 / 2⟩ : Vec3) = ⟨-1, 0, 0⟩
    norm_num
  have hval : floatingAttraction ⟨2, 0, 0⟩ = ⟨-(0.08 : ℝ), 0, 0⟩ := by
    rw [floatingAttraction, hneg, hnorm, smul]
    show (⟨(0.08 : ℝ) * -1, 0.08 * 0, 0.08 * 0⟩ : Vec3) = ⟨-(0.08 : ℝ), 0, 0⟩
    norm_num
  refine ⟨hval, ?_⟩
  rw [hval, smul]
  intro hcontra
  have hx : (-(0.08 : ℝ)) = -(0.08 : ℝ) * 2 := congrArg Vec3.x hcontra
  norm_num at hx

/-- C2 amended: in the Connector controllers the centering term is the pure
restoring spring law `-p * forceMultiplier` per axis before oscillation and
bias are added (App.jsx with gain 0.4; the part_008 variant with gain 0.15),
and its magnitude is `forceMultiplier * |p|`, directed exactly opposite `p`;
the FloatingSphere variant instead applies a constant-magnitude
origin-directed pull. -/
theorem connector_centering_spring_law (p : Vec3) :
    centeringTerm p = smul (-forceMultiplier) p ∧
    inwardForce008 p = smul (-(0.15 : ℝ)) p ∧
    vlen (centeringTerm p) = forceMultiplier * vlen p := by
  have h1 : centeringTerm p = smul (-forceMultiplier) p := by
    rw [centeringTerm, smul]
    show (⟨-p.x * forceMultiplier, -p.y * forceMultiplier, -p.z * forceMultiplier⟩ : Vec3)
        = ⟨-forceMultiplier * p.x, -forceMultiplier * p.y, -forceMultiplier * p.z⟩
    rw [Vec3.mk.injEq]
    refine ⟨by ring, by ring, by ring⟩
  have h2 : inwardForce008 p = smul (-(0.15 : ℝ)) p := by
    rw [inwardForce008, vneg, smul, smul]
    rw [Vec3.mk.injEq]
    refine ⟨by ring, by ring, by ring⟩
  have h3 : vlen (centeringTerm p) = forceMultiplier * vlen p := by
    rw [h1, vlen_smul, abs_neg, abs_of_nonneg (by norm_num [forceMultiplier] : (0:ℝ) ≤ forceMultiplier)]
  exact ⟨h1, h2, h3⟩

/-- C4: If the trigger impulse fires while the body is exactly at the
origin, the applied impulse is the zero vector, and no division by zero
occurs: `THREE.Vector3.normalize` divides by `length() || 1`, which is `1`
at the origin, so the result is finite (no NaN or Infinity can arise). -/
theorem click_impulse_at_origin :
    normDivisor ⟨0, 0, 0⟩ = 1 ∧ clickImpulse ⟨0, 0, 0⟩ = ⟨0, 0, 0⟩ := by
  have hd : normDivisor ⟨0, 0, 0⟩ = 1 := by
    rw [normDivisor, vlen_origin]
    simp
  refine ⟨hd, ?_⟩
  rw [clickImpulse, vnormalize_of_origin, smul]
  show (⟨(50 : ℝ) * 0, 50 * 0, 50 * 0⟩ : Vec3) = ⟨0, 0, 0⟩
  norm_num

theorem clamp_abs_le_one (x : ℝ) : |max (-1) (min 1 x)| ≤ 1 := by
  rw [abs_le]
  exact ⟨le_max_left _ _, max_le (by norm_num) (min_le_left _ _)⟩

/-- C5: For every raw device-orientation reading, of any magnitude, the
steering bias added to the force never exceeds `gyroStrength` in absolute
value on either affected axis. -/
theorem gyro_bias_clamped (o : Orient) :
    |(gyroBias o).1| ≤ gyroStrength ∧ |(gyroBias o).2| ≤ gyroStrength := by
  have hg : |gyroStrength| = gyroStrength := abs_of_nonneg (by norm_num [gyroStrength])
  constructor
  · show |-(max (-1) (min 1 (o.gamma / maxTilt))) * gyroStrength| ≤ gyroStrength
    rw [neg_mul, abs_neg, abs_mul, hg]
    calc |max (-1) (min 1 (o.gamma / maxTilt))| * gyroStrength
        ≤ 1 * gyroStrength := by
          exact mul_le_mul_of_nonneg_right (clamp_abs_le_one _) (by norm_num [gyroStrength])
      _ = gyroStrength := one_mul _
  · show |max (-1) (min 1 (o.beta / maxTilt)) * gyroStrength| ≤ gyroStrength
    rw [abs_mul, hg]
    calc |max (-1) (min 1 (o.beta / maxTilt))| * gyroStrength
        ≤ 1 * gyroStrength := by
          exact mul_le_mul_of_nonneg_right (clamp_abs_le_one _) (by norm_num [gyroStrength])
      _ = gyroStrength := one_mul _

/-- C6: With `p = (2,0,0)`, zero phase offsets, `t = 0`,
`forceMultiplier = 0.4` and steering absent, the per-tick force is exactly
`(-0.8, 0.1, 0)`: the centering gives `-0.8` on x, the oscillation gives
`cos 0 * 0.1 = 0.1` on y, and `sin 0` kills the x and z oscillation. -/
theorem scenario_a_force :
    connectorForce false PermState.denied ⟨0, 0⟩ 0 ⟨2, 0, 0⟩ ⟨0, 0, 0⟩
      = ⟨-0.8, 0.1, 0⟩ := by
  rw [connectorForce, if_neg (by simp)]
  rw [baseForce, centeringTerm, oscTerm, vadd]
  show (⟨-2 * forceMultiplier + Real.sin (0 * oscSpeeds.x + 0) * 0.1,
         -0 * forceMultiplier + Real.cos (0 * oscSpeeds.y + 0) * 0.1,
         -0 * forceMultiplier + Real.sin (0 * oscSpeeds.z + 0) * 0.05⟩ : Vec3)
      = ⟨-0.8, 0.1, 0⟩
  rw [Vec3.mk.injEq]
  norm_num [forceMultiplier, Real.sin_zero, Real.cos_zero]

/-- C7: When the steering adapter reports unsupported, or permission is not
granted, the per-tick force is identical to the no-steering code path for
every same `(t, p, φ)`: the adapter with the device-orientation API absent
reports unsupported and denied, and every non-granted combination skips the
gyro block entirely, leaving exactly the base force. -/
theorem steering_absent_equals_base (g : Bool) (t : ℝ) (p phi : Vec3)
    (o : Orient) (perm : PermState) :
    connectorForce (gyroAdapter false g).1 (gyroAdapter false g).2 o t p phi
        = baseForce t p phi ∧
    connectorForce false perm o t p phi = baseForce t p phi ∧
    connectorForce true PermState.denied o t p phi = baseForce t p phi ∧
    connectorForce true PermState.unknown o t p phi = baseForce t p phi := by
  refine ⟨?_, ?_, ?_, ?_⟩
  · show connectorForce false PermState.denied o t p phi = baseForce t p phi
    rw [connectorForce, if_neg (by simp)]
  · rw [connectorForce, if_neg (by simp)]
  · rw [connectorForce, if_neg (by simp)]
  · rw [connectorForce, if_neg (by simp)]

/-- C8: With steering absent, the per-tick (force, torque) output is a
deterministic function of `(t, p, φ)` alone: two connector instances whose
states agree on the phase offsets produce identical per-frame outputs, no
matter how the rest of their state (the trigger edge-detector) differs. -/
theorem frame_output_no_hidden_state (s1 s2 : ConnectorState) (o : Orient)
    (t : ℝ) (p : Vec3) (h : s1.offset = s2.offset) :
    frameUpdate s1 false PermState.denied o t p
      = frameUpdate s2 false PermState.denied o t p := by
  rw [frameUpdate, frameUpdate, h]

theorem frame_output_no_hidden_state_witness :
    frameUpdate ⟨⟨1, 2, 3⟩, none⟩ false PermState.denied ⟨0, 0⟩ 0 ⟨1, 1, 1⟩
      = frameUpdate ⟨⟨1, 2, 3⟩, some 5⟩ false PermState.denied ⟨0, 0⟩ 0 ⟨1, 1, 1⟩ :=
  frame_output_no_hidden_state ⟨⟨1, 2, 3⟩, none⟩ ⟨⟨1, 2, 3⟩, some 5⟩ ⟨0, 0⟩ 0 ⟨1, 1, 1⟩ rfl

/-- C9: The gyroscope bias modifies only the x and y components of the
per-tick force: the z component always equals the no-steering value, and
the torque is entirely independent of the steering signal (two frames with
arbitrary different steering inputs produce the same torque). -/
theorem gyro_touches_only_xy (supported : Bool) (perm pm2 : PermState)
    (o o2 : Orient) (t : ℝ) (p phi : Vec3) :
    (connectorFrame supported perm o t p phi).1.z = (baseForce t p phi).z ∧
    (connectorFrame supported perm o t p phi).2
      = (connectorFrame false pm2 o2 t p phi).2 := by
  constructor
  · show (connectorForce supported perm o t p phi).z = (baseForce t p phi).z
    rw [connectorForce]
    by_cases hc : supported = true ∧ perm = PermState.granted
    · rw [if_pos hc]
    · rw [if_neg hc]
  · rfl

end PortfolioHero
